import Mathlib

/-!
Shallow embedding of the `dragon` repository: a finite-state-machine
tokenizer (`src/lexer.rs`) and a recursive-descent grammar validator
(`src/parser.rs`).  Bytes are modelled as `Nat`, token text as `List Nat`
(the lexer reconstructs text byte by byte), and the fallible Rust methods
as `Except`-valued functions.
-/

deriving instance DecidableEq for Except

namespace Dragon

/-- Rust `Symbol` from `lexer.rs`: the closed enumeration of token kinds. -/
inductive Symbol where
  | Identifier
  | Number
  | Ponctuation
  | Operator
  | Assign
deriving DecidableEq

/-- Rust `Token` from `lexer.rs`: a kind plus the reconstructed text. -/
structure Token where
  key : Symbol
  value : List Nat
deriving DecidableEq

/-- Rust `Cursor` from `lexer.rs`: 1-based line/column diagnostic position. -/
structure Cursor where
  line : Nat
  column : Nat
deriving DecidableEq

/-- The four lexical error kinds of `Lexer::nchar` (`lexer.rs` returns the
corresponding error strings). -/
inductive LexError where
  | UnrecognizedSymbol
  | MalformedIdentifier
  | UnrecognizedNumber
  | InvalidState
deriving DecidableEq

/-- A lexical failure: the error kind together with the cursor position the
code reports (printed via the `DEBUG: line .. column ..` diagnostic at the
moment the error is returned). -/
structure LexFail where
  kind : LexError
  cursor : Cursor
deriving DecidableEq

/-- Predicate `Lexer::is_ponctuation`: the single statement terminator `;` (0x3b). -/
def is_ponctuation (ch : Nat) : Bool :=
  ch == 0x3b

/-- Predicate `Lexer::is_digit`: ASCII `0`..`9`. -/
def is_digit (ch : Nat) : Bool :=
  0x30 ≤ ch && ch ≤ 0x39

/-- Predicate `Lexer::is_letter`: ASCII `A`..`Z` or `a`..`z`. -/
def is_letter (ch : Nat) : Bool :=
  (0x41 ≤ ch && ch ≤ 0x5a) || (0x61 ≤ ch && ch ≤ 0x7a)

/-- Predicate `Lexer::is_operator`: `!` (0x21) or `<`, `=`, `>` (0x3c..0x3e). -/
def is_operator (ch : Nat) : Bool :=
  ch == 0x21 || (0x3c ≤ ch && ch ≤ 0x3e)

/-- Predicate `Lexer::is_new_line`: line feed (0x0a). -/
def is_new_line (ch : Nat) : Bool :=
  ch == 0x0a

/-- Predicate `Lexer::is_whitespace_like`: tab, form feed, carriage return, space. -/
def is_whitespace_like (ch : Nat) : Bool :=
  ch == 0x09 || ch == 0x0c || ch == 0x0d || ch == 0x20

/-- Method `Lexer::refresh_cursor`: runs once per consumed byte, before the byte is
classified.  A non-whitespace, non-newline byte advances the column and is
appended to the in-progress token text; a newline advances the line and
resets the column to 0; other whitespace leaves the cursor untouched. -/
def refresh_cursor (cursor : Cursor) (token_value : List Nat) (ch : Nat) :
    Cursor × List Nat :=
  if !(is_whitespace_like ch) && !(is_new_line ch) then
    (⟨cursor.line, cursor.column + 1⟩, token_value ++ [ch])
  else if is_new_line ch then
    (⟨cursor.line + 1, 0⟩, token_value)
  else
    (cursor, token_value)

/-- The loop state of `Lexer::nchar`: the numeric automaton state, the
in-progress token text `value`, the tokens pushed so far, plus the lexer's
cursor. -/
structure LexState where
  state : Nat
  value : List Nat
  tokens : List Token
  cursor : Cursor
deriving DecidableEq

/-- One iteration of the `for &ch in buffer.iter()` loop of `Lexer::nchar`:
first `refresh_cursor`, then the `match state` dispatch, preserving the
source's branch order (including the unreachable `is_ponctuation` arms that
are shadowed by an earlier condition). -/
def nstep (s : LexState) (ch : Nat) : Except LexFail LexState :=
  let rc := refresh_cursor s.cursor s.value ch
  let cur := rc.1
  let value := rc.2
  match s.state with
  | 0 =>
    if is_whitespace_like ch || is_new_line ch then
      .ok ⟨0, value, s.tokens, cur⟩
    else if is_letter ch then
      .ok ⟨1, value, s.tokens, cur⟩
    else if is_digit ch then
      .ok ⟨3, value, s.tokens, cur⟩
    else if is_operator ch then
      .ok ⟨5, value, s.tokens, cur⟩
    else if is_ponctuation ch then
      .ok ⟨0, [], s.tokens ++ [⟨.Ponctuation, value⟩], cur⟩
    else
      .error ⟨.UnrecognizedSymbol, cur⟩
  | 1 =>
    if is_letter ch || is_digit ch then
      .ok ⟨1, value, s.tokens, cur⟩
    else if is_whitespace_like ch || is_operator ch then
      .ok ⟨0, [], s.tokens ++ [⟨.Identifier, value⟩], cur⟩
    else if is_ponctuation ch then
      .ok ⟨0, [], s.tokens ++ [⟨.Ponctuation, value⟩], cur⟩
    else
      .error ⟨.MalformedIdentifier, cur⟩
  | 3 =>
    if is_digit ch then
      .ok ⟨3, value, s.tokens, cur⟩
    else if !(is_letter ch) then
      .ok ⟨0, [], s.tokens ++ [⟨.Number, value⟩], cur⟩
    else if is_ponctuation ch then
      .ok ⟨0, [], s.tokens ++ [⟨.Ponctuation, value⟩], cur⟩
    else
      .error ⟨.UnrecognizedNumber, cur⟩
  | 5 =>
    if is_operator ch then
      .ok ⟨0, [], s.tokens ++ [⟨.Operator, value⟩], cur⟩
    else if !(is_operator ch) then
      .ok ⟨0, [], s.tokens ++ [⟨.Assign, value⟩], cur⟩
    else if is_ponctuation ch then
      .ok ⟨0, [], s.tokens ++ [⟨.Ponctuation, value⟩], cur⟩
    else
      .ok ⟨5, value, s.tokens, cur⟩
  | _ =>
    .error ⟨.InvalidState, cur⟩

/-- The whole `for` loop of `Lexer::nchar`, folded over the buffer. -/
def runNchar (s : LexState) : List Nat → Except LexFail LexState
  | [] => .ok s
  | ch :: rest =>
    match nstep s ch with
    | .error e => .error e
    | .ok s' => runNchar s' rest

/-- The state `Lexer::new` plus `nchar`'s local bindings start from:
state 0, empty text, no tokens, cursor at line 1 column 1. -/
def initState : LexState :=
  ⟨0, [], [], ⟨1, 1⟩⟩

/-- Method `Lexer::nchar` on a byte buffer: run the loop from the initial state and
keep the pushed tokens (`self.tokens = tokens`); any token still in progress
in `value` is not flushed. -/
def nchar (buffer : List Nat) : Except LexFail (List Token) :=
  match runNchar initState buffer with
  | .error e => .error e
  | .ok s => .ok s.tokens

/-- The syntactic error taxonomy of `parser.rs`: `Parser::t` reports that an
Identifier or Number was expected, `Parser::op` that an Operator was
expected; each carries the offending token it formats into its message. -/
inductive ParseError where
  | ExpectedTermError (tok : Token)
  | ExpectedOperatorError (tok : Token)
deriving DecidableEq

/-- Method `Parser::op`: checks the symbol already pulled by the caller and fails
with the expected-Operator error, carrying the current token, unless it is
an `Operator`. -/
def op (curr_token : Token) (token_t : Symbol) : Except ParseError Unit :=
  if token_t ≠ Symbol.Operator then
    .error (.ExpectedOperatorError curr_token)
  else
    .ok ()

/-- Method `Parser::t`: pulls the token at `pos` (advancing the position); succeeds
vacuously when none remains, otherwise requires kind Identifier or Number. -/
def t (tokens : List Token) (pos : Nat) : Except ParseError Unit :=
  match tokens.get? pos with
  | none => .ok ()
  | some tok =>
    if tok.key ≠ Symbol.Identifier ∧ tok.key ≠ Symbol.Number then
      .error (.ExpectedTermError tok)
    else
      .ok ()

/-- Method `Parser::eline`: pulls the token at `pos`.  No token left means the ε
production succeeds.  If the pulled token is not an `Operator` the code
re-checks it with `op` (which therefore always fails there), then would run
`t` on the next position and recurse two positions further; if it is an
`Operator` the production returns successfully without recursing. -/
def eline (tokens : List Token) (pos : Nat) : Except ParseError Unit :=
  match h : tokens.get? pos with
  | none => .ok ()
  | some tok =>
    if tok.key ≠ Symbol.Operator then
      match op tok tok.key with
      | .error e => .error e
      | .ok _ =>
        match t tokens (pos + 1) with
        | .error e => .error e
        | .ok _ => eline tokens (pos + 2)
    else
      .ok ()
termination_by tokens.length - pos
decreasing_by
  have hlt : pos < tokens.length := by
    by_contra hge
    rw [List.get?_eq_none.mpr (Nat.le_of_not_lt hge)] at h
    cases h
  omega

/-- Method `Parser::e`, the entry point: `t` consumes position 0, then `eline`
starts at position 1. -/
def e (tokens : List Token) : Except ParseError Unit :=
  match t tokens 0 with
  | .error err => .error err
  | .ok _ => eline tokens 1

/-- Total text length of a token list: how many source bytes the emitted
tokens account for. -/
def tokensTextLen (tokens : List Token) : Nat :=
  (tokens.map fun tok => tok.value.length).sum

/-- The number of bytes of a buffer that are neither whitespace-like nor
newline: exactly the bytes `refresh_cursor` appends to token text. -/
def nonWsCount (buffer : List Nat) : Nat :=
  (buffer.filter fun ch => !(is_whitespace_like ch || is_new_line ch)).length

/-- Whether a lexer result is the defensive `InvalidState` failure of the
catch-all `_` arm of `Lexer::nchar`. -/
def reportsInvalidState (r : Except LexFail (List Token)) : Bool :=
  match r with
  | .error f => f.kind == LexError.InvalidState
  | .ok _ => false

/-- The condition the validator actually decides: the token at position 0,
when present, is an `Identifier` or a `Number`, and the token at position 1,
when present, is an `Operator`. -/
def checkTwo (tokens : List Token) : Bool :=
  (match tokens.get? 0 with
   | none => true
   | some tok => tok.key == Symbol.Identifier || tok.key == Symbol.Number) &&
  (match tokens.get? 1 with
   | none => true
   | some tok => tok.key == Symbol.Operator)

/-- Formalisation of the grammar the specification ascribes to the
validator, for comparison with `e`: continuation of `E' -> OP T E' | ε`
under permissive end-of-stream handling (`T` and `E'` succeed vacuously when
no tokens remain). -/
def specEline : List Token → Bool
  | [] => true
  | tok :: rest =>
    tok.key == Symbol.Operator &&
      (match rest with
       | [] => true
       | tok2 :: rest2 =>
         (tok2.key == Symbol.Identifier || tok2.key == Symbol.Number) &&
           specEline rest2)

/-- Formalisation of the specified language `E -> T E'`: a Term followed by
`(Operator Term)*`, possibly cut short by end of input. -/
def specE (tokens : List Token) : Bool :=
  match tokens with
  | [] => true
  | tok :: rest =>
    (tok.key == Symbol.Identifier || tok.key == Symbol.Number) && specEline rest

/-! Evaluation lemmas for the validator. -/

/-- Lemma: `eline` never recurses: the `op` re-check fails whenever the pulled token
is not an `Operator`, so one pulled token decides the call. -/
lemma eline_eval (tokens : List Token) (pos : Nat) :
    eline tokens pos =
      match tokens.get? pos with
      | none => .ok ()
      | some tok =>
        if tok.key ≠ Symbol.Operator then
          .error (.ExpectedOperatorError tok)
        else
          .ok () := by
  rw [eline]
  cases h : tokens.get? pos with
  | none => simp [h]
  | some tok =>
    simp only [h]
    by_cases hk : tok.key = Symbol.Operator
    · simp [hk]
    · simp [hk, op]

/-- Closed form of `t`: a pulled token passes exactly when its kind is
`Identifier` or `Number`. -/
lemma t_eval (tokens : List Token) (pos : Nat) :
    t tokens pos =
      match tokens.get? pos with
      | none => .ok ()
      | some tok =>
        if tok.key = Symbol.Identifier ∨ tok.key = Symbol.Number then
          .ok ()
        else
          .error (.ExpectedTermError tok) := by
  rw [t]
  cases h : tokens.get? pos with
  | none => rfl
  | some tok =>
    simp only
    by_cases hk : tok.key = Symbol.Identifier ∨ tok.key = Symbol.Number
    · rw [if_neg (by tauto), if_pos hk]
    · rw [if_pos (by tauto), if_neg hk]

/-- Closed form of the entry point `e`: the position-0 term check followed by
the position-1 operator check. -/
lemma e_eval (tokens : List Token) :
    e tokens =
      match t tokens 0 with
      | .error err => .error err
      | .ok _ =>
        match tokens.get? 1 with
        | none => .ok ()
        | some tok =>
          if tok.key ≠ Symbol.Operator then
            .error (.ExpectedOperatorError tok)
          else
            .ok () := by
  rw [e, eline_eval]

/-! Claims about the validator. -/

/-- C7: validation of `[Identifier, Operator, Number]` succeeds; validation
of `[Identifier, Identifier]` fails with the expected-Operator error carrying
the second token; validation of an empty token stream succeeds. -/
theorem C7_validator_examples (a b c : List Nat) :
    e [⟨.Identifier, a⟩, ⟨.Operator, b⟩, ⟨.Number, c⟩] = .ok () ∧
    e [⟨.Identifier, a⟩, ⟨.Identifier, b⟩] =
      .error (.ExpectedOperatorError ⟨.Identifier, b⟩) ∧
    e ([] : List Token) = .ok () := by
  refine ⟨?_, ?_, ?_⟩ <;> simp [e_eval, t]


/-- C7 witness: the validator examples evaluated at concrete token texts. -/
theorem C7_witness :
    e [⟨.Identifier, [0x61]⟩, ⟨.Operator, [0x3c]⟩, ⟨.Number, [0x31]⟩] =
      .ok () ∧
    e [⟨.Identifier, [0x61]⟩, ⟨.Identifier, [0x3c]⟩] =
      .error (.ExpectedOperatorError ⟨.Identifier, [0x3c]⟩) ∧
    e ([] : List Token) = .ok () :=
  C7_validator_examples [0x61] [0x3c] [0x31]

/-- C10: the validator never examines tokens at position 2 or beyond:
validation succeeds exactly when the first token (if any) is an Identifier
or Number and the second token (if any) is an Operator, and the result only
depends on the tokens at positions 0 and 1 (including their absence). -/
theorem C10_first_two_tokens_decide :
    (∀ tokens : List Token,
      e tokens = .ok () ↔
        ((match tokens.get? 0 with
          | none => True
          | some tok => tok.key = Symbol.Identifier ∨ tok.key = Symbol.Number) ∧
         (match tokens.get? 1 with
          | none => True
          | some tok => tok.key = Symbol.Operator))) ∧
    (∀ tokens1 tokens2 : List Token,
      tokens1.get? 0 = tokens2.get? 0 → tokens1.get? 1 = tokens2.get? 1 →
      e tokens1 = e tokens2) := by
  constructor
  · intro tokens
    rw [e_eval, t_eval]
    cases h0 : tokens.get? 0 with
    | none =>
      cases h1 : tokens.get? 1 with
      | none => simp
      | some tok1 =>
        by_cases hk1 : tok1.key = Symbol.Operator <;> simp [hk1]
    | some tok0 =>
      dsimp only
      by_cases hk0 : tok0.key = Symbol.Identifier ∨ tok0.key = Symbol.Number
      · rw [if_pos hk0]
        cases h1 : tokens.get? 1 with
        | none => simp [hk0]
        | some tok1 =>
          by_cases hk1 : tok1.key = Symbol.Operator <;> simp [hk0, hk1]
      · rw [if_neg hk0]
        simp [hk0]
  · intro tokens1 tokens2 h0 h1
    rw [e_eval, e_eval, t_eval, t_eval, h0, h1]

/-- C10 witness: two streams agreeing at positions 0 and 1 but differing at
position 2 validate identically. -/
theorem C10_witness :
    e [⟨.Identifier, [0x61]⟩, ⟨.Operator, [0x3c]⟩, ⟨.Number, [0x31]⟩] =
      e [⟨.Identifier, [0x61]⟩, ⟨.Operator, [0x3c]⟩, ⟨.Ponctuation, [0x3b]⟩] :=
  C10_first_two_tokens_decide.2 _ _ rfl rfl

/-- C2 counterexample: the claim "validation succeeds exactly when the
sequence is derivable from the spec grammar" fails on the concrete stream
`[Identifier, Operator, Punctuation]`: the code accepts it (it never looks
past position 1), while the grammar `Term (Operator Term)*` rejects its
third token. -/
theorem C2_counterexample :
    ¬ (e [⟨.Identifier, [0x61]⟩, ⟨.Operator, [0x3c, 0x3e]⟩, ⟨.Ponctuation, [0x3b]⟩] =
          .ok () ↔
       specE [⟨.Identifier, [0x61]⟩, ⟨.Operator, [0x3c, 0x3e]⟩, ⟨.Ponctuation, [0x3b]⟩] =
          true) := by
  intro hiff
  have hok :
      e [⟨.Identifier, [0x61]⟩, ⟨.Operator, [0x3c, 0x3e]⟩, ⟨.Ponctuation, [0x3b]⟩] =
        .ok () := by
    simp [e_eval, t]
  have hspec := hiff.mp hok
  simp [specE, specEline] at hspec

/-- C2 amended: the validator does not decide the language of the grammar
`E -> T E'`; because `eline` returns without recursing on seeing an
`Operator` and its `op` re-check rejects every non-`Operator` second token,
validation succeeds exactly when the first token (if present) is an
`Identifier` or `Number` and the second token (if present) is an
`Operator`. -/
theorem C2_validator_decides_first_two (tokens : List Token) :
    e tokens = .ok () ↔ checkTwo tokens = true := by
  rw [e_eval, t_eval, checkTwo]
  cases h0 : tokens.get? 0 with
  | none =>
    cases h1 : tokens.get? 1 with
    | none => simp
    | some tok1 =>
      by_cases hk1 : tok1.key = Symbol.Operator <;> simp [hk1]
  | some tok0 =>
    dsimp only
    by_cases hk0 : tok0.key = Symbol.Identifier ∨ tok0.key = Symbol.Number
    · rw [if_pos hk0]
      cases h1 : tokens.get? 1 with
      | none => simp [hk0]
      | some tok1 =>
        by_cases hk1 : tok1.key = Symbol.Operator <;> simp [hk0, hk1]
    · rw [if_neg hk0]
      simp [hk0]


/-- C2 witness: the first-two-token characterisation evaluated on a
one-token stream. -/
theorem C2_witness :
    e [⟨.Identifier, [0x61]⟩] = .ok () ↔
      checkTwo [⟨.Identifier, [0x61]⟩] = true :=
  C2_validator_decides_first_two [⟨.Identifier, [0x61]⟩]

/-! Byte-class case lemmas. -/

lemma wsLike_cases (ch : Nat) (h : is_whitespace_like ch = true) :
    ch = 0x09 ∨ ch = 0x0c ∨ ch = 0x0d ∨ ch = 0x20 := by
  simp [is_whitespace_like] at h
  omega

lemma operator_cases (ch : Nat) (h : is_operator ch = true) :
    ch = 0x21 ∨ ch = 0x3c ∨ ch = 0x3d ∨ ch = 0x3e := by
  simp [is_operator] at h
  omega

lemma ponctuation_eq (ch : Nat) (h : is_ponctuation ch = true) : ch = 0x3b := by
  simp [is_ponctuation] at h
  omega

/-! Conservation of source bytes. -/

/-- One `nchar` loop iteration accounts for exactly the consumed byte: the
bytes held by the emitted tokens plus the in-progress text grow by one for a
non-whitespace byte and are unchanged otherwise. -/
lemma nstep_textLen (s : LexState) (ch : Nat) (s' : LexState)
    (h : nstep s ch = .ok s') :
    tokensTextLen s'.tokens + s'.value.length =
      tokensTextLen s.tokens + s.value.length +
        (if is_whitespace_like ch || is_new_line ch then 0 else 1) := by
  obtain ⟨st, v, toks, cur⟩ := s
  simp only [nstep, refresh_cursor] at h
  repeat' split at h
  all_goals
    first
      | (injection h with h2; subst h2; simp_all [tokensTextLen]; omega)
      | (injection h with h2; subst h2; simp_all [tokensTextLen])
      | injection h

/-- The whole scan accounts for every non-whitespace, non-newline byte of
the buffer: token text plus leftover in-progress text. -/
lemma runNchar_textLen (buffer : List Nat) :
    ∀ s s', runNchar s buffer = .ok s' →
      tokensTextLen s'.tokens + s'.value.length =
        tokensTextLen s.tokens + s.value.length + nonWsCount buffer := by
  induction buffer with
  | nil =>
    intro s s' h
    simp only [runNchar] at h
    injection h with h2
    subst h2
    simp [nonWsCount]
  | cons ch rest ih =>
    intro s s' h
    simp only [runNchar] at h
    cases hstep : nstep s ch with
    | error f => rw [hstep] at h; simp at h
    | ok s1 =>
      rw [hstep] at h
      have h1 := nstep_textLen s ch s1 hstep
      have h2 := ih s1 s' h
      have h3 : nonWsCount (ch :: rest) =
          (if is_whitespace_like ch || is_new_line ch then 0 else 1) +
            nonWsCount rest := by
        cases hb : is_whitespace_like ch || is_new_line ch <;>
          simp [nonWsCount, List.filter, hb, Nat.add_comm]
      rw [h3]
      omega

/-! Automaton state invariant. -/

/-- From a legal automaton state (0, 1, 3 or 5) one step reaches only legal
states, and every error it reports is a classification error, never the
defensive `InvalidState`. -/
lemma nstep_valid (s : LexState) (ch : Nat)
    (hs : s.state = 0 ∨ s.state = 1 ∨ s.state = 3 ∨ s.state = 5) :
    (∀ s', nstep s ch = .ok s' →
      s'.state = 0 ∨ s'.state = 1 ∨ s'.state = 3 ∨ s'.state = 5) ∧
    (∀ f, nstep s ch = .error f → f.kind ≠ LexError.InvalidState) := by
  obtain ⟨st, v, toks, cur⟩ := s
  dsimp at hs
  rcases hs with h | h | h | h <;> subst h <;>
    (constructor <;> intro x hx <;> simp only [nstep] at hx <;>
      (repeat' split at hx) <;>
      first
        | (injection hx with h2; subst h2; simp)
        | injection hx)

/-- Running the loop from a legal state never reports `InvalidState`. -/
lemma runNchar_no_invalid (buffer : List Nat) :
    ∀ s f, (s.state = 0 ∨ s.state = 1 ∨ s.state = 3 ∨ s.state = 5) →
      runNchar s buffer = .error f → f.kind ≠ LexError.InvalidState := by
  induction buffer with
  | nil =>
    intro s f _ h
    simp [runNchar] at h
  | cons ch rest ih =>
    intro s f hs h
    simp only [runNchar] at h
    cases hstep : nstep s ch with
    | error g =>
      rw [hstep] at h
      injection h with h2
      subst h2
      exact (nstep_valid s ch hs).2 _ hstep
    | ok s1 =>
      rw [hstep] at h
      exact ih s1 f ((nstep_valid s ch hs).1 s1 hstep) h

/-! Claims about the tokenizer. -/

/-- C1 counterexample: `scan(b"abc;123;")` does not return
`[Identifier("abc"), Punctuation(";"), Number("123"), Punctuation(";")]`;
the code emits `[Ponctuation("abc;"), Number("123;")]`, because the `;` is
appended to the accumulated text before classification and the S1 branch
emits the whole accumulation as a single `Ponctuation` token. -/
theorem C1_counterexample :
    nchar [0x61, 0x62, 0x63, 0x3b, 0x31, 0x32, 0x33, 0x3b] =
      .ok [⟨.Ponctuation, [0x61, 0x62, 0x63, 0x3b]⟩,
           ⟨.Number, [0x31, 0x32, 0x33, 0x3b]⟩] ∧
    ([⟨.Ponctuation, [0x61, 0x62, 0x63, 0x3b]⟩,
      ⟨.Number, [0x31, 0x32, 0x33, 0x3b]⟩] : List Token) ≠
      [⟨.Identifier, [0x61, 0x62, 0x63]⟩, ⟨.Ponctuation, [0x3b]⟩,
       ⟨.Number, [0x31, 0x32, 0x33]⟩, ⟨.Ponctuation, [0x3b]⟩] := by
  constructor
  · decide
  · decide

/-- C1 amended: when `;` terminates an identifier run the lexer emits one
`Ponctuation` token whose text is the accumulated identifier text followed
by `;` (no separate `Identifier` token); when `;` terminates a number run it
emits one `Number` token whose text is the digits followed by `;`; in
particular `scan(b"abc;123;")` is `[Ponctuation("abc;"), Number("123;")]`. -/
theorem C1_punctuation_termination (v : List Nat) (toks : List Token)
    (cur : Cursor) (ch : Nat) (hch : is_ponctuation ch = true) :
    nstep ⟨1, v, toks, cur⟩ ch =
      .ok ⟨0, [], toks ++ [⟨.Ponctuation, v ++ [ch]⟩],
        ⟨cur.line, cur.column + 1⟩⟩ ∧
    nstep ⟨3, v, toks, cur⟩ ch =
      .ok ⟨0, [], toks ++ [⟨.Number, v ++ [ch]⟩],
        ⟨cur.line, cur.column + 1⟩⟩ ∧
    nchar [0x61, 0x62, 0x63, 0x3b, 0x31, 0x32, 0x33, 0x3b] =
      .ok [⟨.Ponctuation, [0x61, 0x62, 0x63, 0x3b]⟩,
           ⟨.Number, [0x31, 0x32, 0x33, 0x3b]⟩] := by
  have h3b := ponctuation_eq ch hch
  subst h3b
  exact ⟨rfl, rfl, by decide⟩

/-- C1 witness: the punctuation-termination steps evaluated at concrete
identifier and number runs. -/
theorem C1_witness :
    nstep ⟨1, [0x61], [], ⟨1, 2⟩⟩ 0x3b =
      .ok ⟨0, [], [⟨.Ponctuation, [0x61, 0x3b]⟩], ⟨1, 3⟩⟩ ∧
    nstep ⟨3, [0x31], [], ⟨1, 2⟩⟩ 0x3b =
      .ok ⟨0, [], [⟨.Number, [0x31, 0x3b]⟩], ⟨1, 3⟩⟩ :=
  ⟨(C1_punctuation_termination [0x61] [] ⟨1, 2⟩ 0x3b rfl).1,
   (C1_punctuation_termination [0x31] [] ⟨1, 2⟩ 0x3b rfl).2.1⟩

/-- C3 counterexample: an operator byte ending an identifier run is neither
excluded from the `Identifier` text nor reprocessed under S0: on
`b"ab<>x"` the code emits `[Identifier("ab<"), Assign(">x")]`, not the
`[Identifier("ab"), Operator("<>")]` the claim implies. -/
theorem C3_counterexample :
    nchar [0x61, 0x62, 0x3c, 0x3e, 0x78] =
      .ok [⟨.Identifier, [0x61, 0x62, 0x3c]⟩, ⟨.Assign, [0x3e, 0x78]⟩] ∧
    ([⟨.Identifier, [0x61, 0x62, 0x3c]⟩, ⟨.Assign, [0x3e, 0x78]⟩] :
        List Token) ≠
      [⟨.Identifier, [0x61, 0x62]⟩, ⟨.Operator, [0x3c, 0x3e]⟩] := by
  constructor
  · decide
  · decide

/-- C3 amended: a whitespace-like byte ends an identifier run emitting
exactly the accumulated bytes, but an operator-class byte has already been
appended to the accumulation by the cursor refresh, so the emitted
`Identifier` includes the terminating operator byte and that byte is
consumed (the automaton returns to S0 with empty accumulation; the byte is
not reprocessed). -/
theorem C3_identifier_termination (v : List Nat) (toks : List Token)
    (cur : Cursor) (ch : Nat) :
    (is_whitespace_like ch = true →
      nstep ⟨1, v, toks, cur⟩ ch =
        .ok ⟨0, [], toks ++ [⟨.Identifier, v⟩], cur⟩) ∧
    (is_operator ch = true →
      nstep ⟨1, v, toks, cur⟩ ch =
        .ok ⟨0, [], toks ++ [⟨.Identifier, v ++ [ch]⟩],
          ⟨cur.line, cur.column + 1⟩⟩) := by
  constructor
  · intro hw
    rcases wsLike_cases ch hw with h | h | h | h <;> subst h <;> rfl
  · intro hop
    rcases operator_cases ch hop with h | h | h | h <;> subst h <;> rfl

/-- C3 witness: a space-terminated and an operator-terminated identifier
step evaluated at concrete inputs. -/
theorem C3_witness :
    nstep ⟨1, [0x61], [], ⟨1, 2⟩⟩ 0x20 =
      .ok ⟨0, [], [⟨.Identifier, [0x61]⟩], ⟨1, 2⟩⟩ ∧
    nstep ⟨1, [0x61], [], ⟨1, 2⟩⟩ 0x3c =
      .ok ⟨0, [], [⟨.Identifier, [0x61, 0x3c]⟩], ⟨1, 3⟩⟩ :=
  ⟨(C3_identifier_termination [0x61] [] ⟨1, 2⟩ 0x20).1 rfl,
   (C3_identifier_termination [0x61] [] ⟨1, 2⟩ 0x3c).2 rfl⟩

/-- C4 counterexample: an `Assign` token's text is not a single
operator-class byte: on `b"<ab"` the code emits `Assign("<a")`, whose text
also contains the following non-operator byte. -/
theorem C4_counterexample :
    nchar [0x3c, 0x61, 0x62] = .ok [⟨.Assign, [0x3c, 0x61]⟩] ∧
    ([⟨.Assign, [0x3c, 0x61]⟩] : List Token) ≠ [⟨.Assign, [0x3c]⟩] := by
  constructor
  · decide
  · decide

/-- C4 amended: each emitted token's text is the accumulation of all
non-whitespace bytes consumed since the previous emission, and the byte that
triggers the emission is itself included whenever it is not
whitespace-like/newline (the cursor refresh appends it before
classification): a standalone `Ponctuation` from S0 is exactly `";"` and an
`Operator` is exactly its two operator bytes, but a whitespace-terminated
`Number` is exactly its digits while an `Assign` also contains the
non-operator byte that follows its operator byte. -/
theorem C4_token_text_formation (v : List Nat) (toks : List Token)
    (cur : Cursor) (ch : Nat) :
    (is_ponctuation ch = true →
      nstep ⟨0, [], toks, cur⟩ ch =
        .ok ⟨0, [], toks ++ [⟨.Ponctuation, [ch]⟩],
          ⟨cur.line, cur.column + 1⟩⟩) ∧
    (is_whitespace_like ch = true →
      nstep ⟨3, v, toks, cur⟩ ch =
        .ok ⟨0, [], toks ++ [⟨.Number, v⟩], cur⟩) ∧
    (is_operator ch = true →
      nstep ⟨5, v, toks, cur⟩ ch =
        .ok ⟨0, [], toks ++ [⟨.Operator, v ++ [ch]⟩],
          ⟨cur.line, cur.column + 1⟩⟩) ∧
    (is_operator ch = false → is_whitespace_like ch = false →
      is_new_line ch = false →
      nstep ⟨5, v, toks, cur⟩ ch =
        .ok ⟨0, [], toks ++ [⟨.Assign, v ++ [ch]⟩],
          ⟨cur.line, cur.column + 1⟩⟩) := by
  refine ⟨?_, ?_, ?_, ?_⟩
  · intro hp
    have h3b := ponctuation_eq ch hp
    subst h3b
    rfl
  · intro hw
    rcases wsLike_cases ch hw with h | h | h | h <;> subst h <;> rfl
  · intro hop
    rcases operator_cases ch hop with h | h | h | h <;> subst h <;> rfl
  · intro hop hw hn
    simp [nstep, refresh_cursor, hop, hw, hn]

/-- C4 witness: the text-formation steps evaluated at concrete inputs: a
standalone `;` and an `Assign` absorbing the byte after its operator. -/
theorem C4_witness :
    nstep ⟨0, [], [], ⟨1, 1⟩⟩ 0x3b =
      .ok ⟨0, [], [⟨.Ponctuation, [0x3b]⟩], ⟨1, 2⟩⟩ ∧
    nstep ⟨5, [0x3c], [], ⟨1, 2⟩⟩ 0x61 =
      .ok ⟨0, [], [⟨.Assign, [0x3c, 0x61]⟩], ⟨1, 3⟩⟩ :=
  ⟨(C4_token_text_formation [] [] ⟨1, 1⟩ 0x3b).1 rfl,
   (C4_token_text_formation [0x3c] [] ⟨1, 2⟩ 0x61).2.2.2 rfl rfl rfl⟩

/-- C5 counterexample: the reported positions are not those the claim
states: `scan(b"9z")` fails with the cursor at column 3 (not 2), and
`scan(b"#")` fails with the cursor at column 2 (not 1), because
`refresh_cursor` advances the column before the byte is classified. -/
theorem C5_counterexample :
    nchar [0x39, 0x7a] =
      .error ⟨.UnrecognizedNumber, ⟨1, 3⟩⟩ ∧
    nchar [0x39, 0x7a] ≠
      .error ⟨.UnrecognizedNumber, ⟨1, 2⟩⟩ ∧
    nchar [0x23] = .error ⟨.UnrecognizedSymbol, ⟨1, 2⟩⟩ ∧
    nchar [0x23] ≠ .error ⟨.UnrecognizedSymbol, ⟨1, 1⟩⟩ := by
  refine ⟨by decide, by decide, by decide, by decide⟩

/-- C5 amended: lexical errors report the cursor already advanced past the
offending byte (column incremented before classification): `scan(b"9z")`
fails with `UnrecognizedNumber` at column 3 and `scan(b"#")` fails with
`UnrecognizedSymbol` at column 2. -/
theorem C5_error_positions :
    nchar [0x39, 0x7a] = .error ⟨.UnrecognizedNumber, ⟨1, 3⟩⟩ ∧
    nchar [0x23] = .error ⟨.UnrecognizedSymbol, ⟨1, 2⟩⟩ := by
  refine ⟨by decide, by decide⟩

/-- C6: if a scan succeeds while the automaton is left in state 1, 3 or 5
with non-empty accumulated text, the returned stream is exactly the tokens
emitted during the loop: the accumulated bytes of the trailing partial run
are in no returned token (the byte count covered by the returned tokens
falls short of the buffer's non-whitespace bytes by the dropped text). -/
theorem C6_trailing_partial_dropped (buffer : List Nat) (s' : LexState)
    (h : runNchar initState buffer = .ok s')
    (hstate : s'.state = 1 ∨ s'.state = 3 ∨ s'.state = 5)
    (hval : s'.value ≠ []) :
    nchar buffer = .ok s'.tokens ∧
    tokensTextLen s'.tokens + s'.value.length = nonWsCount buffer ∧
    tokensTextLen s'.tokens < nonWsCount buffer := by
  have hc := runNchar_textLen buffer initState s' h
  have hz : tokensTextLen initState.tokens + initState.value.length = 0 := rfl
  have hlen : s'.value.length ≠ 0 := fun hl => hval (List.length_eq_zero.mp hl)
  refine ⟨?_, by omega, by omega⟩
  rw [nchar, h]

/-- C6 witness: scanning `b"a"` leaves the automaton in S1 with text `"a"`
and returns no token at all. -/
theorem C6_witness :
    nchar [0x61] = .ok [] ∧
    tokensTextLen [] + ([0x61] : List Nat).length = nonWsCount [0x61] ∧
    tokensTextLen [] < nonWsCount [0x61] :=
  C6_trailing_partial_dropped [0x61] ⟨1, [0x61], [], ⟨1, 2⟩⟩
    (by decide) (by decide) (by decide)

/-- C8 counterexample: the cursor column does decrease during a scan: after
`";"` the cursor is at column 2, and consuming the following newline byte
resets it to column 0. -/
theorem C8_counterexample :
    runNchar initState [0x3b] =
      .ok ⟨0, [], [⟨.Ponctuation, [0x3b]⟩], ⟨1, 2⟩⟩ ∧
    runNchar initState [0x3b, 0x0a] =
      .ok ⟨0, [], [⟨.Ponctuation, [0x3b]⟩], ⟨2, 0⟩⟩ ∧
    (0 : Nat) < 2 := by
  refine ⟨by decide, by decide, by decide⟩

/-- C8 amended: across each per-byte cursor update the line never decreases
and the pair (line, column) never decreases lexicographically; the column
alone may decrease, resetting to 0 exactly when a newline strictly
increases the line. -/
theorem C8_cursor_monotonic (cur : Cursor) (v : List Nat) (ch : Nat) :
    cur.line ≤ ((refresh_cursor cur v ch).1).line ∧
    (cur.line < ((refresh_cursor cur v ch).1).line ∨
      (cur.line = ((refresh_cursor cur v ch).1).line ∧
        cur.column ≤ ((refresh_cursor cur v ch).1).column)) := by
  unfold refresh_cursor
  split
  · dsimp
    omega
  · split
    · dsimp
      omega
    · dsimp
      omega

/-- C9: no input buffer can make `nchar` return the defensive
`InvalidState` error: the automaton state is 0, 1, 3 or 5 at the top of
every loop iteration, so the catch-all arm is unreachable. -/
theorem C9_invalid_state_unreachable (buffer : List Nat) :
    reportsInvalidState (nchar buffer) = false := by
  rw [nchar]
  cases h : runNchar initState buffer with
  | ok s => rfl
  | error f =>
    have hne := runNchar_no_invalid buffer initState f (by left; rfl) h
    simpa [reportsInvalidState] using hne


/-- C8 witness: the lexicographic cursor monotonicity evaluated at a
newline byte from line 1, column 2. -/
theorem C8_witness :
    (⟨1, 2⟩ : Cursor).line ≤ ((refresh_cursor ⟨1, 2⟩ [] 0x0a).1).line ∧
    ((⟨1, 2⟩ : Cursor).line < ((refresh_cursor ⟨1, 2⟩ [] 0x0a).1).line ∨
      ((⟨1, 2⟩ : Cursor).line = ((refresh_cursor ⟨1, 2⟩ [] 0x0a).1).line ∧
        (⟨1, 2⟩ : Cursor).column ≤
          ((refresh_cursor ⟨1, 2⟩ [] 0x0a).1).column)) :=
  C8_cursor_monotonic ⟨1, 2⟩ [] 0x0a

/-- C9 witness: even an erroring scan does not report `InvalidState`. -/
theorem C9_witness : reportsInvalidState (nchar [0x23]) = false :=
  C9_invalid_state_unreachable [0x23]

end Dragon
